import Mathlib

/-!
Verification development for the avchopper repository (chopper / ffchopper /
avchopper / avtoolkit): a shallow embedding in Lean 4 of the pieces of the
code that the specification's claims are about, and proofs settling each
claim.

The embedded pieces are:
  * `avtoolkit/util.py`: the `tempdir` decorator (Scoped Temporary Workspace
    Manager), including Python's `try/finally` semantics where an exception
    raised by the `finally` block replaces the in-flight exception;
  * an event-trace model of `tempfile.mkdtemp` / `shutil.rmtree` for the
    workspace-uniqueness claim;
  * the `Video` class of `avtoolkit/video.py` (construction, the lazily
    cached `data` property, `overlay`'s duration computation, `reencode`,
    and the ffmpeg argument lists of the derived-file operations), and the
    variant constructors / `reencode` of `chopper.py` and
    `avchopper/video.py`.

External collaborators (the filesystem, `tempfile.mkdtemp`, `shutil.rmtree`,
ffmpeg, ffprobe) are modelled at the boundary the code uses them at: the
filesystem is a list of existing paths, `mkdtemp` yields a path that does
not currently exist, a transcode invocation either succeeds having created
its designated output path or fails having possibly left a partial file
there, and `ffprobe` output is an environment function from path to probe
data.
-/

namespace AvChopper

/-! ### Filesystem model

A filesystem state is the list of paths that currently exist.  `isUnder d p`
holds when `p` is the directory `d` itself or a path inside it, so
`rmtreeFs d` is the effect of a successful `shutil.rmtree(d)`: the directory
and everything inside it disappear. -/

/-- A filesystem state: the list of existing paths. -/
abbrev Fs : Type := List String

/-- `p` is the path `d` itself, or a path strictly inside the directory `d`. -/
def isUnder (d p : String) : Bool :=
  p == d || p.take (d.length + 1) == d ++ "/"

/-- The effect of a successful `shutil.rmtree d` on the filesystem: every
path at or under `d` is removed. -/
def rmtreeFs (d : String) (fs : Fs) : Fs :=
  fs.filter (fun p => !(isUnder d p))

/-- The outcome of running a Python callable: a normal return value, or a
raised exception (identified by a label). -/
inductive Outcome (α : Type) where
  | normal (v : α)
  | raised (e : String)
deriving DecidableEq, Repr

/-- OS-level behaviour of `shutil.rmtree` itself: `rmtreeFails d fs = some e`
means removing `d` in state `fs` raises the exception `e` (e.g. a permission
error); `none` means the removal succeeds. -/
structure Sh where
  rmtreeFails : String → Fs → Option String

/-- `shutil.rmtree` that always succeeds. -/
def shOk : Sh := ⟨fun _ _ => none⟩

/-! ### The `tempdir` decorator (`avtoolkit/util.py`)

```python
def tempdir(func):
    @wraps(func)
    def wrapper(*args, **kwargs):
        if "tmpdir" in kwargs:
            return func(*args, **kwargs)
        tmpdir = tempfile.mkdtemp()
        kwargs["tmpdir"] = tmpdir
        try:
            return func(*args, **kwargs)
        finally:
            shutil.rmtree(tmpdir)
    return wrapper
```

The wrapped operation `func` is a state transformer on the filesystem that
also receives the `tmpdir` path.  `tmpdirKw` is the optional caller-supplied
`tmpdir` keyword argument; `fresh` is the path `tempfile.mkdtemp` would
return (its contract: a newly created directory that did not exist before,
so theorems assume nothing at or under `fresh` exists).  Python `try/finally`
semantics: if the `finally` block raises, that exception replaces the
in-flight return or exception. -/
def tempdirRun {α : Type} (sh : Sh) (func : String → Fs → Outcome α × Fs)
    (tmpdirKw : Option String) (fresh : String) (fs : Fs) : Outcome α × Fs :=
  match tmpdirKw with
  | some d => func d fs
  | none =>
      let fs1 : Fs := fresh :: fs
      let r := func fresh fs1
      match sh.rmtreeFails fresh r.2 with
      | none => (r.1, rmtreeFs fresh r.2)
      | some e2 => (Outcome.raised e2, r.2)

/-! ### Event-trace model of workspace creation and removal

For the uniqueness claim about several managed invocations, an execution is
a trace of the `tempfile.mkdtemp` and `shutil.rmtree` calls the wrapper
performs, tagged with the invocation that performed them.  The contract of
`tempfile.mkdtemp` is exactly that the path it returns did not exist at the
moment of creation (`freshAtEachMk`); nothing guarantees that a path whose
directory was already removed is not handed out again later. -/

/-- One manager-performed filesystem event: invocation `inv` creates its
workspace at `path` (`tempfile.mkdtemp`), or removes it (`shutil.rmtree`). -/
inductive TdEvent where
  | mkd (inv : Nat) (path : String)
  | rmd (inv : Nat) (path : String)
deriving DecidableEq, Repr

/-- Effect of one event on the set of existing workspace paths. -/
def tdStep (fs : List String) : TdEvent → List String
  | TdEvent.mkd _ p => p :: fs
  | TdEvent.rmd _ p => fs.filter (fun q => q != p)

/-- The workspace paths existing after running a trace from state `fs`. -/
def fsAfter (fs : List String) : List TdEvent → List String
  | [] => fs
  | e :: t => fsAfter (tdStep fs e) t

/-- The `tempfile.mkdtemp` contract along a trace: every created path did
not exist at the moment of its creation. -/
def freshAtEachMk (fs : List String) : List TdEvent → Bool
  | [] => true
  | TdEvent.mkd _ p :: t => !(fs.contains p) && freshAtEachMk (tdStep fs (TdEvent.mkd 0 p)) t
  | TdEvent.rmd i p :: t => freshAtEachMk (tdStep fs (TdEvent.rmd i p)) t

/-- The trace of two managed invocations run one after the other with no
caller-supplied directory: the wrapper of invocation 0 creates `p0`, runs
its body, removes `p0`; then invocation 1 does the same with `p1`. -/
def seqTwoInvocations (p0 p1 : String) : List TdEvent :=
  [TdEvent.mkd 0 p0, TdEvent.rmd 0 p0, TdEvent.mkd 1 p1, TdEvent.rmd 1 p1]

/-! ### The `Video` class

`PyErr` labels the Python exception classes the embedded code can raise.
`Env` packages the external collaborators a `Video` method consults:
`os.path.exists`, `os.path.abspath`, and what `ffprobe` (via
`Video.probe` / `json.loads`) reports for a given path.  `Proc` records an
external-process invocation, so the theorems can speak about which external
tools ran. -/

/-- Python exception classes raised by the embedded code. -/
inductive PyErr where
  | ioError
  | keyError
  | indexError
  | attributeError
  | calledProcessError
deriving DecidableEq, Repr

/-- An external-process invocation: an `ffprobe` run on a path, or an
`ffmpeg` (transcode) run with an argument list. -/
inductive Proc where
  | probe (path : String)
  | transcode (args : List String)
deriving DecidableEq, Repr

/-- One stream entry of the JSON mapping `ffprobe -show_streams` prints:
only the presence and value of its `duration` field matter here. -/
structure StreamInfo where
  duration : Option ℚ
deriving DecidableEq, Repr

/-- The parsed probe mapping: `streams` is `none` when the mapping has no
`streams` key (so subscripting it raises `KeyError`). -/
structure ProbeData where
  streams : Option (List StreamInfo)
deriving DecidableEq, Repr

/-- External collaborators consulted by `Video` methods. -/
structure Env where
  fileExists : String → Bool
  abspath : String → String
  probeResult : String → ProbeData
  transcodeOk : List String → Bool

/-- The mutable state of a `Video` instance: its `source` path and the
`_data` cache field (initialized to `None`, the unset marker). -/
structure VideoState where
  source : String
  _data : Option ProbeData
deriving DecidableEq, Repr

/-- `avtoolkit/video.py` `Video.__init__` (identical in `ffchopper` and
`avchopper` except that `ffchopper` skips `abspath`):

```python
def __init__(self, source):
    if not os.path.exists(source):
        raise IOError("File does not exist at %r" % source)
    self.source = os.path.abspath(source)
    self._data = None
    self._frame_paths = []
```

Returns the constructed state or the raised error, together with the list
of external-process invocations made (none). -/
def videoInit (env : Env) (source : String) : Except PyErr VideoState × List Proc :=
  if env.fileExists source then
    (Except.ok { source := env.abspath source, _data := none }, [])
  else
    (Except.error PyErr.ioError, [])

/-- `chopper.py` `Video.__init__`: the earliest revision performs no
existence check at all:

```python
def __init__(self, source):
    self.source = source
    self._data = None
    self._frame_paths = []
``` -/
def chopperVideoInit (source : String) : Except PyErr VideoState × List Proc :=
  (Except.ok { source := source, _data := none }, [])

/-- The `data` property (`avtoolkit/video.py`, identical in `chopper.py`):

```python
@property
def data(self):
    if self._data is None:
        self._data = self.probe(self.source)
    return self._data
```

Returns the mapping, the updated instance state, and the external-process
invocations made (`Video.probe` runs `ffprobe` on `self.source`). -/
def dataProp (env : Env) (v : VideoState) : ProbeData × VideoState × List Proc :=
  match v._data with
  | some d => (d, v, [])
  | none =>
      let d := env.probeResult v.source
      (d, { v with _data := some d }, [Proc.probe v.source])

/-! ### `Video.overlay` (`avtoolkit/video.py`)

```python
def overlay(self, vid, start_seconds, output_path, overlay_duration=None, position=(0, 0)):
    try:
        duration = overlay_duration or float(vid.data["streams"][0]["duration"])
    except KeyError:
        raise AttributeError("Must provide overlay_duration if the overlay is an image.")
    ffmpeg([
        "-i", self.source,
        "-i", vid.source,
        "-filter_complex",
        "overlay=%s:enable='between(t,%d,%d)'" % (
            ":".join(map(str, position)), start_seconds, start_seconds+duration
        ),
        output_path
    ])
    return Video(output_path)
```

Numbers are modelled as rationals.  `"%d" % x` truncates a Python number to
an integer; `pyIntStr` reproduces that (truncation toward zero via integer
division of numerator by denominator).  The single quotes inside the filter
expression are built with `Char.ofNat 39`. -/

/-- Subscripting `data["streams"][0]["duration"]`: `KeyError` when the
`streams` key or the `duration` field is missing, `IndexError` (uncaught by
`overlay`) when the stream list is empty. -/
def firstStreamDuration (d : ProbeData) : Except PyErr ℚ :=
  match d.streams with
  | none => Except.error PyErr.keyError
  | some [] => Except.error PyErr.indexError
  | some (s :: _) =>
      match s.duration with
      | none => Except.error PyErr.keyError
      | some q => Except.ok q

/-- Python truthiness of the `overlay_duration` argument: `None` and the
number `0` are falsy, every other number is truthy. -/
def pyTruthy : Option ℚ → Bool
  | none => false
  | some q => q != 0

/-- `"%d" % q` for a Python number: truncation toward zero. -/
def pyIntStr (q : ℚ) : String := toString (Int.tdiv q.num (Int.ofNat q.den))

/-- `":".join(map(str, position))`. -/
def joinPos (position : ℚ × ℚ) : String :=
  toString position.1 ++ ":" ++ toString position.2

/-- A single-quote character, as a string. -/
def sq : String := String.singleton (Char.ofNat 39)

/-- The `-filter_complex` expression `overlay` builds. -/
def overlayFilter (position : ℚ × ℚ) (start_seconds duration : ℚ) : String :=
  "overlay=" ++ joinPos position ++ ":enable=" ++ sq ++ "between(t," ++
    pyIntStr start_seconds ++ "," ++ pyIntStr (start_seconds + duration) ++ ")" ++ sq

/-- The argument list `overlay` passes to `ffmpeg`. -/
def overlayArgs (selfSource vidSource : String) (position : ℚ × ℚ)
    (start_seconds duration : ℚ) (output_path : String) : List String :=
  ["-i", selfSource,
   "-i", vidSource,
   "-filter_complex", overlayFilter position start_seconds duration,
   output_path]

/-- The `try`-block of `overlay`:
`duration = overlay_duration or float(vid.data["streams"][0]["duration"])`,
with `except KeyError: raise AttributeError(...)`.  When `overlay_duration`
is falsy (`None` or `0`), `vid.data` is evaluated — running `ffprobe` when
the cache is unset — and the first stream's `duration` field is read.
Returns the duration or the raised error, the updated state of `vid`, and
the external-process invocations made. -/
def overlayDurationCalc (env : Env) (vid : VideoState) (overlay_duration : Option ℚ) :
    Except PyErr ℚ × VideoState × List Proc :=
  if pyTruthy overlay_duration then (Except.ok (overlay_duration.getD 0), vid, [])
  else
    let r := dataProp env vid
    match firstStreamDuration r.1 with
    | Except.ok q => (Except.ok q, r.2.1, r.2.2)
    | Except.error PyErr.keyError => (Except.error PyErr.attributeError, r.2.1, r.2.2)
    | Except.error e => (Except.error e, r.2.1, r.2.2)

/-- `Video.overlay` of `avtoolkit/video.py`.  After a successful transcode
the output file exists, so the final `Video(output_path)` construction is
modelled as succeeding; a failing transcode raises
`subprocess.CalledProcessError` (via `check_call`).  Returns the result (the
new handle's state or the raised error), the updated state of `vid`, and
the trace of external-process invocations in order. -/
def overlay (env : Env) (self vid : VideoState) (start_seconds : ℚ)
    (output_path : String) (overlay_duration : Option ℚ) (position : ℚ × ℚ) :
    Except PyErr VideoState × VideoState × List Proc :=
  match overlayDurationCalc env vid overlay_duration with
  | (Except.error e, vid1, t1) => (Except.error e, vid1, t1)
  | (Except.ok duration, vid1, t1) =>
      let args := overlayArgs self.source vid1.source position start_seconds duration output_path
      if env.transcodeOk args then
        (Except.ok { source := env.abspath output_path, _data := none }, vid1,
          t1 ++ [Proc.transcode args])
      else
        (Except.error PyErr.calledProcessError, vid1, t1 ++ [Proc.transcode args])

/-! ### `Video.reencode`: `avtoolkit/video.py` versus `avchopper/video.py`

`avtoolkit`:

```python
def reencode(self, output_path):
    ffmpeg(["-i", self.source, output_path])
    return Video(output_path)
```

`avchopper`:

```python
@tempdir
def reencode(tmpdir, self, output_path):
    _, ext = os.path.splitext(output_path)
    output = os.path.join(tmpdir, "output%s" % ext)
    args = ["-i", self.source, output]
    ffmpeg(args)
    shutil.move(output, output_path)
    return Video(output_path)
```

A transcode-tool invocation is modelled at the boundary: it either succeeds,
having created its designated output path, or fails (non-zero exit, raised
as `CalledProcessError` by `check_call`), having possibly left a
partially-written file at that path. -/

/-- One behaviour of the external transcode tool: whether the run succeeds,
and — when it fails — whether a partially-written file is left at the
designated output path. -/
structure TranscodeRun where
  success : Bool
  leavesFile : Bool
deriving DecidableEq, Repr

/-- Effect of one transcode-tool invocation with designated output path
`out` on the filesystem. -/
def applyTranscode (tr : TranscodeRun) (out : String) (fs : Fs) : Outcome Unit × Fs :=
  if tr.success then (Outcome.normal (), out :: fs)
  else (Outcome.raised "CalledProcessError", if tr.leavesFile then out :: fs else fs)

/-- `shutil.move src dst` on the filesystem model. -/
def shMove (src dst : String) (fs : Fs) : Fs :=
  dst :: fs.filter (fun p => p != src)

/-- Helper for `extOf`: scanning the characters of a path in reverse, the
extension characters are those seen before the first dot (char 46); a slash
(char 47) or the start of the string before any dot means no extension. -/
def extRev : List Char → Option (List Char)
  | [] => none
  | c :: t =>
    if c == Char.ofNat 46 then some []
    else if c == Char.ofNat 47 then none
    else match extRev t with
      | none => none
      | some r => some (r ++ [c])

/-- The extension part of `os.path.splitext`: the suffix of the last path
component from its final dot, including the dot (empty when the component
has no dot; the leading-dot special case of dotfiles is not reproduced —
no embedded operation depends on it). -/
def extOf (p : String) : String :=
  match extRev p.data.reverse with
  | none => ""
  | some cs => String.mk (Char.ofNat 46 :: cs)

/-- `avtoolkit` `Video.reencode`: the caller's final `output_path` is handed
directly to the transcode tool.  The outcome's normal value is the source
path of the returned `Video`. -/
def reencodeAvtoolkit (tr : TranscodeRun) (source output_path : String) (fs : Fs) :
    Outcome String × Fs :=
  match applyTranscode tr output_path fs with
  | (Outcome.normal _, fs1) => (Outcome.normal output_path, fs1)
  | (Outcome.raised e, fs1) => (Outcome.raised e, fs1)

/-- The body of `avchopper` `Video.reencode` (inside the `tempdir`
decorator): transcode into `tmpdir/output(ext)`, then `shutil.move` the
result to the caller's final `output_path`. -/
def reencodeAvchopperBody (tr : TranscodeRun) (source output_path : String)
    (tmpdir : String) (fs : Fs) : Outcome String × Fs :=
  let output := tmpdir ++ "/output" ++ extOf output_path
  match applyTranscode tr output fs with
  | (Outcome.normal _, fs1) => (Outcome.normal output_path, shMove output output_path fs1)
  | (Outcome.raised e, fs1) => (Outcome.raised e, fs1)

/-- `avchopper` `Video.reencode`: the body wrapped by the `tempdir`
decorator. -/
def reencodeAvchopper (sh : Sh) (tr : TranscodeRun) (source output_path : String)
    (tmpdirKw : Option String) (fresh : String) (fs : Fs) : Outcome String × Fs :=
  tempdirRun sh (reencodeAvchopperBody tr source output_path) tmpdirKw fresh fs

/-! ### The ffmpeg invocations of the other `avtoolkit` operations

For the immutability claim, each derived-file operation of
`avtoolkit/video.py` is described by the exact argument list it hands to
`ffmpeg` together with the paths that invocation writes (ffmpeg's output
files — the trailing non-flag arguments of the list).  `str(x)` of a Python
number is modelled by `toString`. -/

/-- An `ffmpeg` invocation: its argument list and the paths it writes. -/
structure FfmpegCall where
  args : List String
  outputs : List String
deriving DecidableEq, Repr

/-- `Video.extract_audio`. -/
def extractAudioCall (source output_path : String) : FfmpegCall :=
  { args := ["-i", source, "-vn", "-acodec", "copy", output_path]
    outputs := [output_path] }

/-- `Video.to_images` (`output_pattern` is the computed `%03d` frame
pattern, placed in `dest_dir` when one is given). -/
def toImagesCall (source output_pattern : String) : FfmpegCall :=
  { args := ["-i", source, output_pattern]
    outputs := [output_pattern] }

/-- `Video.reencode` (`avtoolkit` version). -/
def reencodeCall (source output_path : String) : FfmpegCall :=
  { args := ["-i", source, output_path]
    outputs := [output_path] }

/-- `Video.split`. -/
def splitCall (source : String) (seconds : ℚ) (beginning_path end_path : String) : FfmpegCall :=
  { args := ["-i", source, "-t", toString seconds, beginning_path,
             "-ss", toString seconds, end_path]
    outputs := [beginning_path, end_path] }

/-- `Video.overlay`'s invocation (argument list as built by `overlayArgs`). -/
def overlayCall (source vidSource : String) (position : ℚ × ℚ)
    (start_seconds duration : ℚ) (output_path : String) : FfmpegCall :=
  { args := overlayArgs source vidSource position start_seconds duration output_path
    outputs := [output_path] }

/-- `Video.concatenate`'s invocation: ffmpeg reads the video sources through
the `files.txt` list written into the scoped workspace (`filenames`); the
member sources appear in that file's contents, not on the command line. -/
def concatenateCall (filenames : String) (reencode : Bool) (output_path : String) : FfmpegCall :=
  { args := ["-f", "concat", "-safe", "0", "-i", filenames] ++
      (if reencode then [] else ["-c", "copy"]) ++ [output_path]
    outputs := [output_path] }

/-- `Video.trim_start`. -/
def trimStartCall (seconds : ℚ) (source output_path : String) : FfmpegCall :=
  { args := ["-ss", toString seconds, "-i", source, output_path]
    outputs := [output_path] }

/-- `Video.trim_end` (`length` is the probed stream duration). -/
def trimEndCall (length seconds : ℚ) (source output_path : String) : FfmpegCall :=
  { args := ["-t", toString (length - seconds), "-i", source, output_path]
    outputs := [output_path] }

/-- `Video.scale`. -/
def scaleCall (source : String) (new_size : ℚ × ℚ) (output_path : String) : FfmpegCall :=
  { args := ["-i", source, "-vf", "scale=" ++ joinPos new_size, output_path]
    outputs := [output_path] }

/-! ## Theorems -/

/-- Membership after a successful recursive removal. -/
theorem mem_rmtreeFs {d p : String} {fs : Fs} :
    p ∈ rmtreeFs d fs ↔ p ∈ fs ∧ isUnder d p = false := by
  simp [rmtreeFs, List.mem_filter]

/-- A directory is under itself. -/
theorem isUnder_self (d : String) : isUnder d d = true := by
  simp [isUnder]

/-- **C1.** A `tempdir`-wrapped operation invoked without a caller-supplied
`tmpdir`: the wrapper hands the operation the `mkdtemp` path `fresh`, which
exists in the state the operation sees, is new (nothing at or under it
existed before — the `mkdtemp` contract, hypothesis `hfresh`) and empty;
the operation's return value or raised error is propagated unchanged (first
conjunct, for both `Outcome.normal` and `Outcome.raised`); and afterwards
the directory and everything inside it no longer exist (last conjunct),
provided the removal itself succeeds (`hrm`). -/
theorem tempdir_creates_passes_removes {α : Type} (sh : Sh)
    (func : String → Fs → Outcome α × Fs) (fresh : String) (fs : Fs)
    (hfresh : ∀ p ∈ fs, isUnder fresh p = false)
    (hrm : ∀ fs2 : Fs, sh.rmtreeFails fresh fs2 = none) :
    (tempdirRun sh func none fresh fs).1 = (func fresh (fresh :: fs)).1
    ∧ fresh ∈ (fresh :: fs)
    ∧ (∀ p ∈ (fresh :: fs), p ≠ fresh → isUnder fresh p = false)
    ∧ (∀ p : String, isUnder fresh p = true →
        p ∉ (tempdirRun sh func none fresh fs).2) := by
  refine ⟨?_, List.mem_cons_self _ _, ?_, ?_⟩
  · simp [tempdirRun, hrm]
  · intro p hp hne
    rcases List.mem_cons.mp hp with h | h
    · exact absurd h hne
    · exact hfresh p h
  · intro p hup hmem
    have hfs2 : (tempdirRun sh func none fresh fs).2
        = rmtreeFs fresh (func fresh (fresh :: fs)).2 := by
      simp [tempdirRun, hrm]
    rw [hfs2] at hmem
    have hfalse := (mem_rmtreeFs.mp hmem).2
    rw [hfalse] at hup
    exact Bool.false_ne_true hup

/-- Witness for C1: a concrete operation that writes a file inside its
workspace and returns its path. -/
theorem tempdir_creates_passes_removes_witness :
    (∀ p ∈ (["/home/u/in.mp4"] : Fs), isUnder "/tmp/w0" p = false)
    ∧ (∀ fs2 : Fs, shOk.rmtreeFails "/tmp/w0" fs2 = none)
    ∧ ((tempdirRun shOk (fun d fs => (Outcome.normal d, (d ++ "/files.txt") :: fs))
          none "/tmp/w0" ["/home/u/in.mp4"]).1
        = ((fun (d : String) (fs : Fs) => (Outcome.normal d, (d ++ "/files.txt") :: fs))
            "/tmp/w0" ("/tmp/w0" :: ["/home/u/in.mp4"])).1
      ∧ "/tmp/w0" ∈ ("/tmp/w0" :: ["/home/u/in.mp4"])
      ∧ (∀ p ∈ ("/tmp/w0" :: ["/home/u/in.mp4"]), p ≠ "/tmp/w0" →
          isUnder "/tmp/w0" p = false)
      ∧ (∀ p : String, isUnder "/tmp/w0" p = true →
          p ∉ (tempdirRun shOk (fun d fs => (Outcome.normal d, (d ++ "/files.txt") :: fs))
                none "/tmp/w0" ["/home/u/in.mp4"]).2)) :=
  ⟨by decide, fun _ => rfl,
    tempdir_creates_passes_removes shOk
      (fun d fs => (Outcome.normal d, (d ++ "/files.txt") :: fs))
      "/tmp/w0" ["/home/u/in.mp4"] (by decide) (fun _ => rfl)⟩

/-- **C2.** A `tempdir`-wrapped operation invoked with a caller-supplied
`tmpdir` keyword is a pure pass-through: the wrapper is exactly the direct
call of the operation (no creation, no removal — first and third
conjuncts), the supplied directory still exists afterwards whenever the
operation itself keeps it (second conjunct), and a second sequential call
with the same pre-existing directory is again a direct call that cannot
fail with any manager-originated error (third and fourth conjuncts). -/
theorem tempdir_supplied_dir_pass_through {α β : Type} (sh sh2 : Sh)
    (func : String → Fs → Outcome α × Fs) (func2 : String → Fs → Outcome β × Fs)
    (d fresh fresh2 : String) (fs : Fs)
    (hd : d ∈ fs)
    (hpres : ∀ fs2 : Fs, d ∈ fs2 → d ∈ (func d fs2).2)
    (hpres2 : ∀ fs2 : Fs, d ∈ fs2 → d ∈ (func2 d fs2).2) :
    tempdirRun sh func (some d) fresh fs = func d fs
    ∧ d ∈ (tempdirRun sh func (some d) fresh fs).2
    ∧ tempdirRun sh2 func2 (some d) fresh2 (tempdirRun sh func (some d) fresh fs).2
        = func2 d (tempdirRun sh func (some d) fresh fs).2
    ∧ d ∈ (tempdirRun sh2 func2 (some d) fresh2
        (tempdirRun sh func (some d) fresh fs).2).2 :=
  ⟨rfl, hpres fs hd, rfl, hpres2 _ (hpres fs hd)⟩

/-- An operation that leaves the filesystem as it is and returns the
workspace path it was handed. -/
def keepOp : String → Fs → Outcome String × Fs := fun dir fs => (Outcome.normal dir, fs)

/-- Witness for C2: the same pre-existing directory supplied to two
sequential calls. -/
theorem tempdir_supplied_dir_pass_through_witness :
    ("/work" ∈ (["/work"] : Fs))
    ∧ (tempdirRun shOk keepOp (some "/work") "/tmp/t1" ["/work"] = keepOp "/work" ["/work"]
      ∧ "/work" ∈ (tempdirRun shOk keepOp (some "/work") "/tmp/t1" ["/work"]).2
      ∧ tempdirRun shOk keepOp (some "/work") "/tmp/t2"
            (tempdirRun shOk keepOp (some "/work") "/tmp/t1" ["/work"]).2
          = keepOp "/work" (tempdirRun shOk keepOp (some "/work") "/tmp/t1" ["/work"]).2
      ∧ "/work" ∈ (tempdirRun shOk keepOp (some "/work") "/tmp/t2"
            (tempdirRun shOk keepOp (some "/work") "/tmp/t1" ["/work"]).2).2) :=
  ⟨by decide,
    tempdir_supplied_dir_pass_through shOk shOk keepOp keepOp "/work" "/tmp/t1" "/tmp/t2"
      ["/work"] (by decide) (fun _ h => h) (fun _ h => h)⟩

/-- An operation body that raises. -/
def raiseOp : String → Fs → Outcome Unit × Fs := fun _ fs => (Outcome.raised "OperationError", fs)

/-- A `shutil.rmtree` that always fails with a permission error. -/
def shPermErr : Sh := ⟨fun _ _ => some "PermissionError"⟩

/-- **C3, counterexample.** When the operation raises `OperationError` and
the cleanup `rmtree` raises `PermissionError`, the caller sees
`PermissionError`: Python's `finally` replaces the in-flight exception, so
the cleanup failure does mask the operation's original failure, contrary to
the claim. -/
theorem tempdir_cleanup_masks_failure_counterexample :
    (tempdirRun shPermErr raiseOp none "/tmp/w2" ([] : Fs)).1 = Outcome.raised "PermissionError"
    ∧ (tempdirRun shPermErr raiseOp none "/tmp/w2" ([] : Fs)).1
        ≠ Outcome.raised "OperationError" :=
  ⟨rfl, by decide⟩

/-- **C3, amended.** When the wrapped operation raises, cleanup runs and the
original failure is re-raised — provided the cleanup itself succeeds; when
the cleanup also fails, the cleanup's exception becomes the caller-visible
result, replacing (masking) the operation's original failure, per Python
`try/finally` semantics. -/
theorem tempdir_failure_propagation {α : Type} (sh : Sh)
    (func : String → Fs → Outcome α × Fs) (fresh : String) (fs : Fs) (e : String)
    (hraise : (func fresh (fresh :: fs)).1 = Outcome.raised e) :
    (sh.rmtreeFails fresh (func fresh (fresh :: fs)).2 = none →
        (tempdirRun sh func none fresh fs).1 = Outcome.raised e
        ∧ (tempdirRun sh func none fresh fs).2
            = rmtreeFs fresh (func fresh (fresh :: fs)).2)
    ∧ (∀ e2 : String, sh.rmtreeFails fresh (func fresh (fresh :: fs)).2 = some e2 →
        (tempdirRun sh func none fresh fs).1 = Outcome.raised e2) := by
  constructor
  · intro h
    constructor
    · simp [tempdirRun, h, hraise]
    · simp [tempdirRun, h]
  · intro e2 h
    simp [tempdirRun, h]

/-- Witness for the amended C3, with an always-succeeding cleanup. -/
theorem tempdir_failure_propagation_witness :
    ((raiseOp "/tmp/w3" ("/tmp/w3" :: [])).1 = Outcome.raised "OperationError")
    ∧ ((shOk.rmtreeFails "/tmp/w3" (raiseOp "/tmp/w3" ("/tmp/w3" :: [])).2 = none →
        (tempdirRun shOk raiseOp none "/tmp/w3" []).1 = Outcome.raised "OperationError"
        ∧ (tempdirRun shOk raiseOp none "/tmp/w3" []).2
            = rmtreeFs "/tmp/w3" (raiseOp "/tmp/w3" ("/tmp/w3" :: [])).2)
      ∧ (∀ e2 : String, shOk.rmtreeFails "/tmp/w3" (raiseOp "/tmp/w3" ("/tmp/w3" :: [])).2 = some e2 →
        (tempdirRun shOk raiseOp none "/tmp/w3" []).1 = Outcome.raised e2)) :=
  ⟨rfl, tempdir_failure_propagation shOk raiseOp "/tmp/w3" [] "OperationError" rfl⟩

/-- Running a trace split in two runs the parts in sequence. -/
theorem fsAfter_append (fs : List String) (xs ys : List TdEvent) :
    fsAfter fs (xs ++ ys) = fsAfter (fsAfter fs xs) ys := by
  induction xs generalizing fs with
  | nil => rfl
  | cons e t ih => simp [fsAfter, ih]

/-- Unfolding of the `mkdtemp` contract check at a creation event. -/
theorem freshAtEachMk_cons_mkd (fs : List String) (i : Nat) (p : String) (t : List TdEvent) :
    freshAtEachMk fs (TdEvent.mkd i p :: t)
      = (!(fs.contains p) && freshAtEachMk (p :: fs) t) := rfl

/-- The `mkdtemp` contract check distributes over trace concatenation. -/
theorem freshAtEachMk_append (fs : List String) (xs ys : List TdEvent) :
    freshAtEachMk fs (xs ++ ys)
      = (freshAtEachMk fs xs && freshAtEachMk (fsAfter fs xs) ys) := by
  induction xs generalizing fs with
  | nil => simp [freshAtEachMk, fsAfter]
  | cons e t ih =>
    cases e with
    | mkd i p => simp [freshAtEachMk, fsAfter, tdStep, ih, Bool.and_assoc]
    | rmd i p => simp [freshAtEachMk, fsAfter, tdStep, ih]

/-- A workspace path persists along a trace that contains no removal of it. -/
theorem mem_fsAfter_of_no_rmd (p : String) (t : List TdEvent) :
    ∀ fs : List String, p ∈ fs → (∀ i : Nat, TdEvent.rmd i p ∉ t) → p ∈ fsAfter fs t := by
  induction t with
  | nil => intro fs hp _; exact hp
  | cons e t ih =>
    intro fs hp hno
    have hno2 : ∀ i : Nat, TdEvent.rmd i p ∉ t :=
      fun i h => hno i (List.mem_cons_of_mem _ h)
    cases e with
    | mkd i q => exact ih (q :: fs) (List.mem_cons_of_mem q hp) hno2
    | rmd i q =>
        have hpq : p ≠ q := by
          intro h
          subst h
          exact hno i (List.mem_cons_self _ _)
        exact ih _ (List.mem_filter.mpr ⟨hp, by simp [hpq]⟩) hno2

/-- **C9, amended.** Two managed invocations whose workspace lifetimes
overlap receive distinct directory paths: if invocation `a` creates `pa`,
and invocation `b` creates `pb` before `pa` has been removed (no removal of
`pa` occurs in the trace segment `t2` between the two creations), then
`pa ≠ pb` — because `tempfile.mkdtemp`'s contract (`freshAtEachMk`)
guarantees `pb` did not exist at its creation while `pa` still did.  (After
a workspace has been removed, nothing prevents a later invocation from
being handed the same path again; see the counterexample.) -/
theorem overlapping_workspaces_distinct (t1 t2 rest : List TdEvent)
    (a b : Nat) (pa pb : String)
    (hfresh : freshAtEachMk []
        (t1 ++ TdEvent.mkd a pa :: (t2 ++ TdEvent.mkd b pb :: rest)) = true)
    (hno : ∀ i : Nat, TdEvent.rmd i pa ∉ t2) :
    pa ≠ pb := by
  rw [freshAtEachMk_append, Bool.and_eq_true] at hfresh
  obtain ⟨-, h⟩ := hfresh
  rw [freshAtEachMk_cons_mkd, Bool.and_eq_true] at h
  obtain ⟨-, h⟩ := h
  rw [freshAtEachMk_append, Bool.and_eq_true] at h
  obtain ⟨-, h⟩ := h
  rw [freshAtEachMk_cons_mkd, Bool.and_eq_true] at h
  obtain ⟨hb, -⟩ := h
  have hpb : pb ∉ fsAfter (pa :: fsAfter [] t1) t2 := by simpa using hb
  have hpa : pa ∈ fsAfter (pa :: fsAfter [] t1) t2 :=
    mem_fsAfter_of_no_rmd pa t2 _ (List.mem_cons_self _ _) hno
  intro hEq
  exact hpb (hEq ▸ hpa)

/-- Witness for the amended C9: two overlapping invocations (the second
workspace is created before the first is removed) receive distinct paths. -/
theorem overlapping_workspaces_distinct_witness :
    freshAtEachMk [] ([] ++ TdEvent.mkd 0 "/tmp/a" :: (([] : List TdEvent)
        ++ TdEvent.mkd 1 "/tmp/b" :: [TdEvent.rmd 0 "/tmp/a", TdEvent.rmd 1 "/tmp/b"])) = true
    ∧ (∀ i : Nat, TdEvent.rmd i "/tmp/a" ∉ ([] : List TdEvent))
    ∧ "/tmp/a" ≠ "/tmp/b" :=
  ⟨by decide, fun _ h => absurd h (List.not_mem_nil _),
    overlapping_workspaces_distinct [] [] [TdEvent.rmd 0 "/tmp/a", TdEvent.rmd 1 "/tmp/b"]
      0 1 "/tmp/a" "/tmp/b" (by decide) (fun _ h => absurd h (List.not_mem_nil _))⟩

/-- **C9, counterexample.** Two distinct sequential managed invocations
(ids 0 and 1; the first removes its workspace before the second starts) can
be handed the same path `/tmp/w` without violating the `mkdtemp` contract:
the path no longer exists when the second invocation creates it.  So "the
created workspace directory paths are pairwise distinct" over *every* two
distinct invocations is not guaranteed — only overlapping invocations are. -/
theorem tempdir_sequential_path_reuse_counterexample :
    freshAtEachMk [] (seqTwoInvocations "/tmp/w" "/tmp/w") = true
    ∧ (0 : Nat) ≠ 1
    ∧ ¬ ("/tmp/w" ≠ "/tmp/w") :=
  ⟨by decide, by decide, fun h => h rfl⟩

/-- **C5, counterexample.** The earliest revision's constructor
(`chopper.py`, `Video.__init__`, cited by the claim) performs no existence
check at all: it stores the path and succeeds, invoking no external
process, even though no file exists at the path — it never raises the
claimed `IOError`. -/
theorem chopper_init_no_existence_check_counterexample :
    (chopperVideoInit "does_not_exist.mp4").1
        = Except.ok { source := "does_not_exist.mp4", _data := none }
    ∧ (chopperVideoInit "does_not_exist.mp4").1 ≠ Except.error PyErr.ioError
    ∧ (chopperVideoInit "does_not_exist.mp4").2 = [] :=
  ⟨rfl, fun h => Except.noConfusion h, rfl⟩

/-- **C5, amended.** For the `avtoolkit` / `ffchopper` / `avchopper`
constructor: when no file exists at the path, construction fails with
`IOError` and no external process is invoked; when the file exists,
construction succeeds (with the absolutized path and an unset metadata
cache).  The earliest `chopper.py` constructor, by contrast, performs no
existence check and always succeeds without invoking any process. -/
theorem video_init_existence_check (env : Env) (source : String) :
    (env.fileExists source = false →
        videoInit env source = (Except.error PyErr.ioError, []))
    ∧ (env.fileExists source = true →
        videoInit env source = (Except.ok { source := env.abspath source, _data := none }, []))
    ∧ chopperVideoInit source = (Except.ok { source := source, _data := none }, []) := by
  refine ⟨fun h => ?_, fun h => ?_, rfl⟩ <;> simp [videoInit, h]

/-- An environment in which no file exists. -/
def envNoFiles : Env :=
  { fileExists := fun _ => false
    abspath := id
    probeResult := fun _ => { streams := none }
    transcodeOk := fun _ => true }

/-- Witness for the amended C5. -/
theorem video_init_existence_check_witness :
    envNoFiles.fileExists "clip.mp4" = false
    ∧ videoInit envNoFiles "clip.mp4" = (Except.error PyErr.ioError, [])
    ∧ chopperVideoInit "clip.mp4" = (Except.ok { source := "clip.mp4", _data := none }, []) :=
  ⟨rfl, (video_init_existence_check envNoFiles "clip.mp4").1 rfl,
    (video_init_existence_check envNoFiles "clip.mp4").2.2⟩

/-- **C6.** The probe metadata is fetched at most once per handle: a handle
fresh from the constructor has the cache field unset; the first access of
`data` invokes the probe exactly once (on the handle's source) and stores
the result in the cache; every access on a handle with a populated cache
returns the cached mapping, leaves the state unchanged and invokes no
external process — in particular the second access after a first one. -/
theorem data_probe_cached_once (env : Env) (s : String) :
    (dataProp env { source := s, _data := none }).1 = env.probeResult s
    ∧ (dataProp env { source := s, _data := none }).2.1
        = { source := s, _data := some (env.probeResult s) }
    ∧ (dataProp env { source := s, _data := none }).2.2 = [Proc.probe s]
    ∧ (∀ d : ProbeData,
        dataProp env { source := s, _data := some d }
          = (d, { source := s, _data := some d }, []))
    ∧ dataProp env (dataProp env { source := s, _data := none }).2.1
        = (env.probeResult s, { source := s, _data := some (env.probeResult s) }, []) :=
  ⟨rfl, rfl, rfl, fun _ => rfl, rfl⟩

/-- Helper: with `overlay_duration` unset, when the overlaid input's first
stream carries no `duration` field the `overlay` call raises
`AttributeError`; no transcode invocation is made, and the only external
invocation possibly made is a single probe of the overlaid input (made
exactly when its metadata cache was unset). -/
theorem overlay_attr_on_missing_duration (env : Env) (self vid : VideoState)
    (start : ℚ) (out : String) (pos : ℚ × ℚ)
    (hnodur : firstStreamDuration (dataProp env vid).1 = Except.error PyErr.keyError) :
    (overlay env self vid start out none pos).1 = Except.error PyErr.attributeError
    ∧ (∀ args : List String,
        Proc.transcode args ∉ (overlay env self vid start out none pos).2.2)
    ∧ ((overlay env self vid start out none pos).2.2 = []
        ∨ (overlay env self vid start out none pos).2.2 = [Proc.probe vid.source]) := by
  cases hv : vid._data with
  | none =>
      have hd : dataProp env vid = (env.probeResult vid.source,
          { vid with _data := some (env.probeResult vid.source) }, [Proc.probe vid.source]) := by
        simp [dataProp, hv]
      rw [hd] at hnodur
      refine ⟨?_, ?_, Or.inr ?_⟩ <;>
        simp [overlay, overlayDurationCalc, pyTruthy, hd, hnodur]
  | some d =>
      have hd : dataProp env vid = (d, vid, []) := by simp [dataProp, hv]
      rw [hd] at hnodur
      refine ⟨?_, ?_, Or.inl ?_⟩ <;>
        simp [overlay, overlayDurationCalc, pyTruthy, hd, hnodur]

/-- An environment whose probe reports one stream with no `duration` field
(what `ffprobe` reports for a still image). -/
def envImageOverlay : Env :=
  { fileExists := fun _ => true
    abspath := id
    probeResult := fun _ => { streams := some [{ duration := none }] }
    transcodeOk := fun _ => true }

/-- **C4, counterexample.** `overlay` on an overlaid input whose metadata is
not yet cached, with no `overlay_duration`: the call does fail with
`AttributeError`, but evaluating `vid.data` first runs the probe tool on
the overlaid input — the external-invocation trace at the moment of failure
is `[probe]`, not empty as the claim requires. -/
theorem overlay_probe_runs_before_failure_counterexample :
    (overlay envImageOverlay { source := "/v/main.mp4", _data := none }
        { source := "/v/tux.png", _data := none } 2 "/v/out.mp4" none (0, 0)).1
      = Except.error PyErr.attributeError
    ∧ (overlay envImageOverlay { source := "/v/main.mp4", _data := none }
        { source := "/v/tux.png", _data := none } 2 "/v/out.mp4" none (0, 0)).2.2
      = [Proc.probe "/v/tux.png"]
    ∧ [Proc.probe "/v/tux.png"] ≠ ([] : List Proc) :=
  ⟨rfl, rfl, by decide⟩

/-- **C4, amended.** With no inherent duration in the overlaid input's first
stream and no explicit duration parameter, `overlay` fails with the
precondition error (`AttributeError`) before the transcode tool is invoked:
no transcode invocation occurs at all; the probe tool, however, may run
once (it does exactly when the overlaid input's metadata was not already
cached) to fetch the metadata the check reads. -/
theorem overlay_missing_duration_precondition (env : Env) (self vid : VideoState)
    (start : ℚ) (out : String) (pos : ℚ × ℚ)
    (hnodur : firstStreamDuration (dataProp env vid).1 = Except.error PyErr.keyError) :
    (overlay env self vid start out none pos).1 = Except.error PyErr.attributeError
    ∧ (∀ args : List String,
        Proc.transcode args ∉ (overlay env self vid start out none pos).2.2)
    ∧ ((overlay env self vid start out none pos).2.2 = []
        ∨ (overlay env self vid start out none pos).2.2 = [Proc.probe vid.source]) :=
  overlay_attr_on_missing_duration env self vid start out pos hnodur

/-- Witness for the amended C4: an uncached image input. -/
theorem overlay_missing_duration_precondition_witness :
    firstStreamDuration (dataProp envImageOverlay { source := "/v/tux.png", _data := none }).1
        = Except.error PyErr.keyError
    ∧ ((overlay envImageOverlay { source := "/v/main.mp4", _data := none }
          { source := "/v/tux.png", _data := none } 2 "/v/o.mp4" none (0, 0)).1
        = Except.error PyErr.attributeError
      ∧ (∀ args : List String,
          Proc.transcode args ∉ (overlay envImageOverlay { source := "/v/main.mp4", _data := none }
            { source := "/v/tux.png", _data := none } 2 "/v/o.mp4" none (0, 0)).2.2)
      ∧ ((overlay envImageOverlay { source := "/v/main.mp4", _data := none }
            { source := "/v/tux.png", _data := none } 2 "/v/o.mp4" none (0, 0)).2.2 = []
          ∨ (overlay envImageOverlay { source := "/v/main.mp4", _data := none }
              { source := "/v/tux.png", _data := none } 2 "/v/o.mp4" none (0, 0)).2.2
            = [Proc.probe "/v/tux.png"])) :=
  ⟨rfl, overlay_missing_duration_precondition envImageOverlay
    { source := "/v/main.mp4", _data := none } { source := "/v/tux.png", _data := none }
    2 "/v/o.mp4" (0, 0) rfl⟩

/-- **C10.** An explicit `overlay_duration` of `0` behaves exactly as if no
duration had been supplied: `overlay_duration or ...` treats the falsy `0`
like `None`, so the whole call is equal to the call with no duration — the
duration used is the probed one — and when the overlaid input's first
stream has no `duration` field the call fails with the missing-duration
`AttributeError` even though a duration argument (`0`) was provided. -/
theorem overlay_zero_duration_as_unset (env : Env) (self vid : VideoState)
    (start : ℚ) (out : String) (pos : ℚ × ℚ) :
    overlay env self vid start out (some 0) pos = overlay env self vid start out none pos
    ∧ (firstStreamDuration (dataProp env vid).1 = Except.error PyErr.keyError →
        (overlay env self vid start out (some 0) pos).1 = Except.error PyErr.attributeError) := by
  have h0 : pyTruthy (some 0) = false := by simp [pyTruthy]
  have hcalc : overlayDurationCalc env vid (some 0) = overlayDurationCalc env vid none := by
    simp [overlayDurationCalc, h0, pyTruthy]
  have hov : overlay env self vid start out (some 0) pos
      = overlay env self vid start out none pos := by
    simp [overlay, hcalc]
  refine ⟨hov, fun hnodur => ?_⟩
  rw [hov]
  exact (overlay_attr_on_missing_duration env self vid start out pos hnodur).1

/-- Witness for C10 at a concrete image input. -/
theorem overlay_zero_duration_as_unset_witness :
    firstStreamDuration (dataProp envImageOverlay { source := "/v/logo.png", _data := none }).1
        = Except.error PyErr.keyError
    ∧ (overlay envImageOverlay { source := "/v/clip.mp4", _data := none }
          { source := "/v/logo.png", _data := none } 3 "/v/z.mp4" (some 0) (0, 0)
        = overlay envImageOverlay { source := "/v/clip.mp4", _data := none }
          { source := "/v/logo.png", _data := none } 3 "/v/z.mp4" none (0, 0)
      ∧ (firstStreamDuration (dataProp envImageOverlay
            { source := "/v/logo.png", _data := none }).1 = Except.error PyErr.keyError →
          (overlay envImageOverlay { source := "/v/clip.mp4", _data := none }
            { source := "/v/logo.png", _data := none } 3 "/v/z.mp4" (some 0) (0, 0)).1
            = Except.error PyErr.attributeError)) :=
  ⟨rfl, overlay_zero_duration_as_unset envImageOverlay
    { source := "/v/clip.mp4", _data := none } { source := "/v/logo.png", _data := none }
    3 "/v/z.mp4" (0, 0)⟩

/-- **C7, counterexample.** The `avtoolkit` `reencode` hands the caller's
final `output_path` directly to the transcode tool (no scoped workspace):
when the tool fails after creating the output file, the operation raises
`CalledProcessError` and a partially-written artifact remains at the final
output path — contradicting "if the operation fails then no output
artifact is left at the caller's final output path". -/
theorem reencode_direct_output_leaves_artifact_counterexample :
    (reencodeAvtoolkit { success := false, leavesFile := true }
        "/v/in.mp4" "/v/final.avi" []).1 = Outcome.raised "CalledProcessError"
    ∧ "/v/final.avi" ∈ (reencodeAvtoolkit { success := false, leavesFile := true }
        "/v/in.mp4" "/v/final.avi" []).2 :=
  ⟨rfl, by decide⟩

/-- **C7, amended.** The `avchopper` `reencode` — which writes its transcode
output inside the scoped workspace and only moves it to the caller's final
path on success — leaves no artifact at the final output path when the
transcode fails (any partial file is inside the workspace and is discarded
with it), and delivers the artifact at the final path on success.  The
`avtoolkit` `reencode`, by contrast, passes the final path directly to the
transcode tool, so a failing run can leave a partial artifact there (see
the counterexample). -/
theorem reencode_workspace_discards_incomplete_output (sh : Sh) (tr : TranscodeRun)
    (src out fresh : String) (fs : Fs)
    (hrm : ∀ fs2 : Fs, sh.rmtreeFails fresh fs2 = none)
    (hout_fs : out ∉ fs)
    (hne_output : out ≠ fresh ++ "/output" ++ extOf out)
    (hunder : isUnder fresh out = false) :
    (tr.success = false →
        (reencodeAvchopper sh tr src out none fresh fs).1
            = Outcome.raised "CalledProcessError"
        ∧ out ∉ (reencodeAvchopper sh tr src out none fresh fs).2)
    ∧ (tr.success = true →
        (reencodeAvchopper sh tr src out none fresh fs).1 = Outcome.normal out
        ∧ out ∈ (reencodeAvchopper sh tr src out none fresh fs).2) := by
  have hfresh_ne : out ≠ fresh := by
    intro h
    rw [h, isUnder_self] at hunder
    exact Bool.noConfusion hunder
  have hrun : reencodeAvchopper sh tr src out none fresh fs
      = ((reencodeAvchopperBody tr src out fresh (fresh :: fs)).1,
         rmtreeFs fresh (reencodeAvchopperBody tr src out fresh (fresh :: fs)).2) := by
    simp [reencodeAvchopper, tempdirRun, hrm]
  constructor
  · intro hfail
    cases htr : tr.leavesFile with
    | true =>
        have hbody : reencodeAvchopperBody tr src out fresh (fresh :: fs)
            = (Outcome.raised "CalledProcessError",
               (fresh ++ "/output" ++ extOf out) :: fresh :: fs) := by
          simp [reencodeAvchopperBody, applyTranscode, hfail, htr]
        rw [hrun, hbody]
        refine ⟨rfl, fun hmem => ?_⟩
        have h3 := (mem_rmtreeFs.mp hmem).1
        rcases List.mem_cons.mp h3 with h | h3b
        · exact hne_output h
        rcases List.mem_cons.mp h3b with h | h3c
        · exact hfresh_ne h
        · exact hout_fs h3c
    | false =>
        have hbody : reencodeAvchopperBody tr src out fresh (fresh :: fs)
            = (Outcome.raised "CalledProcessError", fresh :: fs) := by
          simp [reencodeAvchopperBody, applyTranscode, hfail, htr]
        rw [hrun, hbody]
        refine ⟨rfl, fun hmem => ?_⟩
        have h3 := (mem_rmtreeFs.mp hmem).1
        rcases List.mem_cons.mp h3 with h | h3c
        · exact hfresh_ne h
        · exact hout_fs h3c
  · intro hsucc
    have hbody : reencodeAvchopperBody tr src out fresh (fresh :: fs)
        = (Outcome.normal out,
           out :: ((fresh ++ "/output" ++ extOf out) :: fresh :: fs).filter
             (fun p => p != (fresh ++ "/output" ++ extOf out))) := by
      simp [reencodeAvchopperBody, applyTranscode, shMove, hsucc]
    rw [hrun, hbody]
    exact ⟨rfl, mem_rmtreeFs.mpr ⟨List.mem_cons_self _ _, hunder⟩⟩

/-- Witness for the amended C7: a failing transcode that leaves a partial
file in the workspace, and the same call with a succeeding transcode. -/
theorem reencode_workspace_discards_incomplete_output_witness :
    (∀ fs2 : Fs, shOk.rmtreeFails "/tmp/wk" fs2 = none)
    ∧ "/v/final.avi" ∉ (["/v/in.mp4"] : Fs)
    ∧ "/v/final.avi" ≠ "/tmp/wk" ++ "/output" ++ extOf "/v/final.avi"
    ∧ isUnder "/tmp/wk" "/v/final.avi" = false
    ∧ ((({ success := false, leavesFile := true } : TranscodeRun).success = false →
        (reencodeAvchopper shOk { success := false, leavesFile := true }
            "/v/in.mp4" "/v/final.avi" none "/tmp/wk" ["/v/in.mp4"]).1
            = Outcome.raised "CalledProcessError"
        ∧ "/v/final.avi" ∉ (reencodeAvchopper shOk { success := false, leavesFile := true }
            "/v/in.mp4" "/v/final.avi" none "/tmp/wk" ["/v/in.mp4"]).2)
      ∧ (({ success := false, leavesFile := true } : TranscodeRun).success = true →
        (reencodeAvchopper shOk { success := false, leavesFile := true }
            "/v/in.mp4" "/v/final.avi" none "/tmp/wk" ["/v/in.mp4"]).1
            = Outcome.normal "/v/final.avi"
        ∧ "/v/final.avi" ∈ (reencodeAvchopper shOk { success := false, leavesFile := true }
            "/v/in.mp4" "/v/final.avi" none "/tmp/wk" ["/v/in.mp4"]).2)) :=
  ⟨fun _ => rfl, by decide, by decide, by decide,
    reencode_workspace_discards_incomplete_output shOk
      { success := false, leavesFile := true } "/v/in.mp4" "/v/final.avi" "/tmp/wk"
      ["/v/in.mp4"] (fun _ => rfl) (by decide) (by decide) (by decide)⟩

/-- Accessing `data` never changes the handle's stored source path. -/
theorem dataProp_source (env : Env) (v : VideoState) :
    (dataProp env v).2.1.source = v.source := by
  cases hv : v._data <;> simp [dataProp, hv]

/-- The duration computation of `overlay` never changes the overlaid
handle's stored source path. -/
theorem overlayDurationCalc_source (env : Env) (vid : VideoState) (od : Option ℚ) :
    (overlayDurationCalc env vid od).2.1.source = vid.source := by
  cases hpt : pyTruthy od with
  | true => simp [overlayDurationCalc, hpt]
  | false =>
      cases hfs : firstStreamDuration (dataProp env vid).1 with
      | ok q => simp [overlayDurationCalc, hpt, hfs, dataProp_source]
      | error e => cases e <;> simp [overlayDurationCalc, hpt, hfs, dataProp_source]

/-- `overlay` never changes the overlaid handle's stored source path. -/
theorem overlay_preserves_vid_source (env : Env) (self vid : VideoState) (start : ℚ)
    (out : String) (od : Option ℚ) (pos : ℚ × ℚ) :
    (overlay env self vid start out od pos).2.1.source = vid.source := by
  have h := overlayDurationCalc_source env vid od
  rcases hc : overlayDurationCalc env vid od with ⟨r, vid1, t⟩
  rw [hc] at h
  cases r with
  | error e => simpa [overlay, hc] using h
  | ok q =>
      cases htc : env.transcodeOk (overlayArgs self.source vid1.source pos start q out) <;>
        simpa [overlay, hc, htc] using h

/-- **C8.** Every derived-file operation of `avtoolkit/video.py` treats the
handle's underlying file as immutable: the handle's source appears in the
transcode argument list as an input (as the operand of an `-i` flag — for
`concatenate` it is read through the `files.txt` list whose path is the
`-i` operand), the paths the invocation writes are exactly the
caller-supplied output paths (plus, for `concatenate`, the list file inside
the scoped workspace), so with a distinct output path the source path is
never written; and no operation changes the handle's stored source path
(shown for the state-changing ones, `data` and `overlay`). -/
theorem operations_read_source_write_elsewhere
    (env : Env) (v vid : VideoState)
    (src out b e fnames pat vsrc : String) (secs len start dur : ℚ)
    (size pos : ℚ × ℚ) (reenc : Bool) (od : Option ℚ)
    (hout : src ≠ out) (hb : src ≠ b) (he : src ≠ e) (hf : src ≠ fnames) (hp : src ≠ pat) :
    (List.IsInfix ["-i", src] (extractAudioCall src out).args
      ∧ src ∉ (extractAudioCall src out).outputs)
    ∧ (List.IsInfix ["-i", src] (toImagesCall src pat).args
      ∧ src ∉ (toImagesCall src pat).outputs)
    ∧ (List.IsInfix ["-i", src] (reencodeCall src out).args
      ∧ src ∉ (reencodeCall src out).outputs)
    ∧ (List.IsInfix ["-i", src] (splitCall src secs b e).args
      ∧ src ∉ (splitCall src secs b e).outputs)
    ∧ (List.IsInfix ["-i", src] (overlayCall src vsrc pos start dur out).args
      ∧ src ∉ (overlayCall src vsrc pos start dur out).outputs)
    ∧ (List.IsInfix ["-i", fnames] (concatenateCall fnames reenc out).args
      ∧ src ∉ fnames :: (concatenateCall fnames reenc out).outputs)
    ∧ (List.IsInfix ["-i", src] (trimStartCall secs src out).args
      ∧ src ∉ (trimStartCall secs src out).outputs)
    ∧ (List.IsInfix ["-i", src] (trimEndCall len secs src out).args
      ∧ src ∉ (trimEndCall len secs src out).outputs)
    ∧ (List.IsInfix ["-i", src] (scaleCall src size out).args
      ∧ src ∉ (scaleCall src size out).outputs)
    ∧ (dataProp env v).2.1.source = v.source
    ∧ (overlay env v vid start out od pos).2.1.source = vid.source := by
  refine ⟨⟨⟨[], ["-vn", "-acodec", "copy", out], rfl⟩, ?_⟩,
    ⟨⟨[], [pat], rfl⟩, ?_⟩,
    ⟨⟨[], [out], rfl⟩, ?_⟩,
    ⟨⟨[], ["-t", toString secs, b, "-ss", toString secs, e], rfl⟩, ?_⟩,
    ⟨⟨[], ["-i", vsrc, "-filter_complex", overlayFilter pos start dur, out], rfl⟩, ?_⟩,
    ⟨⟨["-f", "concat", "-safe", "0"],
      (if reenc then [] else ["-c", "copy"]) ++ [out], rfl⟩, ?_⟩,
    ⟨⟨["-ss", toString secs], [out], rfl⟩, ?_⟩,
    ⟨⟨["-t", toString (len - secs)], [out], rfl⟩, ?_⟩,
    ⟨⟨[], ["-vf", "scale=" ++ joinPos size, out], rfl⟩, ?_⟩,
    dataProp_source env v,
    overlay_preserves_vid_source env v vid start out od pos⟩
  · simp [extractAudioCall, hout]
  · simp [toImagesCall, hp]
  · simp [reencodeCall, hout]
  · simp [splitCall, hb, he]
  · simp [overlayCall, hout]
  · simp [concatenateCall, hf, hout]
  · simp [trimStartCall, hout]
  · simp [trimEndCall, hout]
  · simp [scaleCall, hout]

/-- Witness for C8 at concrete paths and parameters. -/
theorem operations_read_source_write_elsewhere_witness :
    (("/m/src.mp4" : String) ≠ "/m/out.mp4" ∧ ("/m/src.mp4" : String) ≠ "/m/b.mp4"
      ∧ ("/m/src.mp4" : String) ≠ "/m/e.mp4" ∧ ("/m/src.mp4" : String) ≠ "/tmp/td/files.txt"
      ∧ ("/m/src.mp4" : String) ≠ "/m/src-%03d.png")
    ∧ ((List.IsInfix ["-i", "/m/src.mp4"] (extractAudioCall "/m/src.mp4" "/m/out.mp4").args
      ∧ "/m/src.mp4" ∉ (extractAudioCall "/m/src.mp4" "/m/out.mp4").outputs)
    ∧ (List.IsInfix ["-i", "/m/src.mp4"] (toImagesCall "/m/src.mp4" "/m/src-%03d.png").args
      ∧ "/m/src.mp4" ∉ (toImagesCall "/m/src.mp4" "/m/src-%03d.png").outputs)
    ∧ (List.IsInfix ["-i", "/m/src.mp4"] (reencodeCall "/m/src.mp4" "/m/out.mp4").args
      ∧ "/m/src.mp4" ∉ (reencodeCall "/m/src.mp4" "/m/out.mp4").outputs)
    ∧ (List.IsInfix ["-i", "/m/src.mp4"] (splitCall "/m/src.mp4" 2 "/m/b.mp4" "/m/e.mp4").args
      ∧ "/m/src.mp4" ∉ (splitCall "/m/src.mp4" 2 "/m/b.mp4" "/m/e.mp4").outputs)
    ∧ (List.IsInfix ["-i", "/m/src.mp4"]
        (overlayCall "/m/src.mp4" "/m/ov.mp4" (0, 0) 1 3 "/m/out.mp4").args
      ∧ "/m/src.mp4" ∉ (overlayCall "/m/src.mp4" "/m/ov.mp4" (0, 0) 1 3 "/m/out.mp4").outputs)
    ∧ (List.IsInfix ["-i", "/tmp/td/files.txt"]
        (concatenateCall "/tmp/td/files.txt" false "/m/out.mp4").args
      ∧ "/m/src.mp4" ∉ "/tmp/td/files.txt"
          :: (concatenateCall "/tmp/td/files.txt" false "/m/out.mp4").outputs)
    ∧ (List.IsInfix ["-i", "/m/src.mp4"] (trimStartCall 2 "/m/src.mp4" "/m/out.mp4").args
      ∧ "/m/src.mp4" ∉ (trimStartCall 2 "/m/src.mp4" "/m/out.mp4").outputs)
    ∧ (List.IsInfix ["-i", "/m/src.mp4"] (trimEndCall 9 2 "/m/src.mp4" "/m/out.mp4").args
      ∧ "/m/src.mp4" ∉ (trimEndCall 9 2 "/m/src.mp4" "/m/out.mp4").outputs)
    ∧ (List.IsInfix ["-i", "/m/src.mp4"] (scaleCall "/m/src.mp4" (640, 360) "/m/out.mp4").args
      ∧ "/m/src.mp4" ∉ (scaleCall "/m/src.mp4" (640, 360) "/m/out.mp4").outputs)
    ∧ (dataProp envImageOverlay { source := "/m/src.mp4", _data := none }).2.1.source
        = "/m/src.mp4"
    ∧ (overlay envImageOverlay { source := "/m/src.mp4", _data := none }
        { source := "/m/ov.mp4", _data := none } 1 "/m/out.mp4" (some 3) (0, 0)).2.1.source
        = "/m/ov.mp4") :=
  ⟨⟨by decide, by decide, by decide, by decide, by decide⟩,
    operations_read_source_write_elsewhere envImageOverlay
      { source := "/m/src.mp4", _data := none } { source := "/m/ov.mp4", _data := none }
      "/m/src.mp4" "/m/out.mp4" "/m/b.mp4" "/m/e.mp4" "/tmp/td/files.txt" "/m/src-%03d.png"
      "/m/ov.mp4" 2 9 1 3 (640, 360) (0, 0) false (some 3)
      (by decide) (by decide) (by decide) (by decide) (by decide)⟩

end AvChopper
